import Mathlib

/-!
Shallow embedding of the `rex` interactive remote file browser
(`src/rex/models.py`, `src/rex/ui/layout.py`, `src/rex/command.py`,
`src/rex/input.py`, `src/rex/app.py`).

Conventions:
* Python `int` values that can be negative or carry negative sentinels
  (`selected`, `top_index`, `scroll`, `search_pos`, key codes, deltas) are
  `Int`; Python `//` and `%` are `Int.fdiv` / `Int.fmod` (floor semantics,
  matching Python).  Values that are provably natural in the source
  (`cursor`, lengths, geometry) are `Nat`; `max`-guards in the source make
  truncated `Nat` subtraction coincide with the Python arithmetic.
* The remote collaborator (`RemoteShell.run`, `RemoteShell.list_directory`)
  is passed in as an oracle value/function, mirroring how the tests inject
  a fake remote.
* The curses screen is `Option (Nat × Nat)` (`none` = `stdscr is None`,
  `some (h, w)` = `getmaxyx`).
-/

namespace Rex

/-- `RemoteEntry` from models.py: one directory-listing row. -/
structure RemoteEntry where
  name : String
  is_dir : Bool
deriving DecidableEq, Repr

/-- `CommandPanelState` from models.py, with the source's field defaults. -/
structure CommandPanelState where
  visible : Bool := false
  input : String := ""
  cursor : Nat := 0
  lines : List String := []
  max_lines : Nat := 2000
  history : List String := []
  history_index : Option Nat := none
  history_stash : String := ""
  scroll : Int := 0
  search_mode : Bool := false
  search_query : String := ""
  search_matches : List Nat := []
  search_pos : Int := -1
deriving DecidableEq, Repr

/-- `AppState` from models.py. -/
structure AppState where
  host : String
  cwd : String
  entries : List RemoteEntry := []
  selected : Int := 0
  top_index : Int := 0
  message : String := ""
  focus : String := "browser"
  command : CommandPanelState := {}
deriving DecidableEq, Repr

/-- `CommandPanelState.reset_for_open` from models.py. -/
def CommandPanelState.reset_for_open (c : CommandPanelState) : CommandPanelState :=
  { c with
    visible := true
    input := ""
    cursor := 0
    lines := []
    scroll := 0
    history_index := none
    history_stash := ""
    search_mode := false
    search_query := ""
    search_matches := []
    search_pos := -1 }

/-- `CommandPanelState.close` from models.py. -/
def CommandPanelState.close (c : CommandPanelState) : CommandPanelState :=
  { c with
    visible := false
    history_index := none
    history_stash := ""
    search_mode := false }

/-- Python list slice `xs[-m:]` (for a list known to be non-empty when
`m = 0` this returns the whole list, exactly as in Python). -/
def pyTakeLast (m : Nat) (xs : List String) : List String :=
  if m = 0 then xs else xs.drop (xs.length - m)

/-- `CommandPanelState.append_line` from models.py. -/
def CommandPanelState.append_line (c : CommandPanelState) (line : String) :
    CommandPanelState :=
  let was_bottom := c.scroll = 0
  let lines := c.lines ++ [line]
  let lines := if lines.length > c.max_lines then pyTakeLast c.max_lines lines else lines
  let c := { c with lines := lines }
  if was_bottom then { c with scroll := 0 } else c

/-- `CommandPanelState.clear_input` from models.py. -/
def CommandPanelState.clear_input (c : CommandPanelState) : CommandPanelState :=
  { c with input := "", cursor := 0 }

/-- Python `str.strip()` (ASCII whitespace, which is all the sources use):
drop whitespace from both ends. -/
def pyStrip (s : String) : String :=
  String.mk
    (((s.toList.dropWhile Char.isWhitespace).reverse.dropWhile Char.isWhitespace).reverse)

/-- Python `str.lower()` (ASCII, which is all the sources use). -/
def pyLower (s : String) : String :=
  String.mk (s.toList.map Char.toLower)

/-- Python substring test `needle in hay`: `needle` occurs at some offset. -/
def pyIn (needle hay : String) : Bool :=
  (List.range (hay.length + 1)).any fun i =>
    needle.toList.isPrefixOf (hay.toList.drop i)

/-- Split a character list at every LF, keeping empty segments (the grouping
that Python `str.split("\n")` produces). -/
def splitLF : List Char → List (List Char)
  | [] => [[]]
  | c :: cs =>
    if c = '\n' then [] :: splitLF cs
    else
      match splitLF cs with
      | [] => [[c]]
      | g :: gs => (c :: g) :: gs

/-- Python `str.splitlines()` for LF-separated text (the only line terminator
produced by the sources and their collaborator contract). -/
def pySplitlines (s : String) : List String :=
  if s = "" then []
  else
    let parts := (splitLF s.toList).map String.mk
    if s.toList.getLast? = some '\n' then parts.dropLast else parts

/-- Python truthiness fallback `a or b` for an optional string. -/
def pyOrStr (a : Option String) (b : String) : String :=
  match a with
  | some x => if x = "" then b else x
  | none => b

/-- Characters `shlex.quote` leaves unquoted: ASCII alphanumerics plus
underscore, at-sign, percent, plus, equals, colon, comma, dot, slash, dash. -/
def shlexSafe (c : Char) : Bool :=
  (97 ≤ c.val ∧ c.val ≤ 122) ∨ (65 ≤ c.val ∧ c.val ≤ 90) ∨
    (48 ≤ c.val ∧ c.val ≤ 57) ∨ c ∈ "_@%+=:,./-".toList

/-- Python `shlex.quote` (the single-quote replacement is applied per
character, which coincides with `str.replace` for a one-character needle). -/
def shlexQuote (s : String) : String :=
  if s = "" then "\x27\x27"
  else if s.toList.all shlexSafe then s
  else
    let body := s.toList.foldr
      (fun c acc =>
        (if c = Char.ofNat 39 then "\x27\"\x27\"\x27".toList else [c]) ++ acc) []
    String.mk (Char.ofNat 39 :: (body ++ [Char.ofNat 39]))

/-- `LayoutEngine.command_block_height` from ui/layout.py (callers only pass
the already-positive content height). -/
def command_block_height (total_height : Nat) : Nat :=
  max 3 (total_height / 4)

/-- `LayoutEngine.browser_pane_dimensions` from ui/layout.py; `geom` is the
curses screen (`none` = `stdscr is None`). -/
def browser_pane_dimensions (geom : Option (Nat × Nat)) (command_visible : Bool) :
    Nat × Nat :=
  match geom with
  | none => (1, 1)
  | some (h, w) =>
    let content_h := max 1 (h - 3)
    let browser_h :=
      if command_visible then
        let command_h := min (content_h - 1) (command_block_height content_h)
        max 1 (content_h - command_h)
      else content_h
    (max 1 (browser_h - 1), max 1 w)

/-- `LayoutEngine.command_output_rows` from ui/layout.py. -/
def command_output_rows (geom : Option (Nat × Nat)) (c : CommandPanelState) : Nat :=
  match geom with
  | none => 0
  | some (h, _) =>
    if !c.visible then 0
    else
      let content_h := max 1 (h - 3)
      let command_block_h := min (content_h - 1) (command_block_height content_h)
      let panel_h := max 1 (command_block_h - 1)
      panel_h - 1

/-- `LayoutEngine.command_max_scroll` from ui/layout.py. -/
def command_max_scroll (geom : Option (Nat × Nat)) (c : CommandPanelState) : Nat :=
  let output_rows := command_output_rows geom c
  if output_rows = 0 then 0 else c.lines.length - output_rows

/-- `LayoutEngine.clamp_command_scroll` from ui/layout.py. -/
def clamp_command_scroll (geom : Option (Nat × Nat)) (c : CommandPanelState) :
    CommandPanelState :=
  { c with scroll := max 0 (min c.scroll (command_max_scroll geom c)) }

/-- `LayoutEngine.scroll_to_line` from ui/layout.py. -/
def scroll_to_line (geom : Option (Nat × Nat)) (line_idx : Int)
    (c : CommandPanelState) : CommandPanelState :=
  let output_rows := command_output_rows geom c
  if output_rows = 0 then { c with scroll := 0 }
  else
    let total : Int := c.lines.length
    let line_idx := max 0 (min (total - 1) line_idx)
    let desired_start := max 0 (line_idx - (output_rows : Int) / 2)
    let desired_end := min total (desired_start + output_rows)
    let desired_start := max 0 (desired_end - output_rows)
    let _ := desired_start
    clamp_command_scroll geom { c with scroll := max 0 (total - desired_end) }

/-- Result record of `LayoutEngine.browser_layout` (the source returns the
tuple `(rows, column_width, cols, page_size)`). -/
structure BrowserLayout where
  rows : Nat
  column_width : Nat
  cols : Nat
  page_size : Nat
deriving DecidableEq, Repr

/-- `LayoutEngine.browser_layout` from ui/layout.py. -/
def browser_layout (entries : List RemoteEntry) (height width : Nat) : BrowserLayout :=
  let rows := max 1 height
  let usable_width := max 1 (width - 1)
  let max_label :=
    entries.foldl (fun m e => max m (e.name.length + if e.is_dir then 1 else 0)) 2
  let column_width := max 4 (min usable_width (max_label + 2))
  let cols := max 1 (usable_width / column_width)
  let column_width := if cols > 1 then max 4 (usable_width / cols) else column_width
  { rows := rows, column_width := column_width, cols := cols,
    page_size := rows * cols }

/-- The browser grid geometry `ensure_visible` works with: pane dimensions
fed into `browser_layout`, exactly as in `LayoutEngine.ensure_visible`. -/
def browser_geom (geom : Option (Nat × Nat)) (s : AppState) : BrowserLayout :=
  let dims := browser_pane_dimensions geom s.command.visible
  browser_layout s.entries dims.1 dims.2

/-- `LayoutEngine.ensure_visible` from ui/layout.py (Python `//` on the
possibly-negative `selected` is floor division, hence `Int.fdiv`). -/
def ensure_visible (geom : Option (Nat × Nat)) (s : AppState) : AppState :=
  let L := browser_geom geom s
  if L.page_size = 0 then s
  else
    let p : Int := L.page_size
    let top :=
      if s.selected < s.top_index ∨ s.selected ≥ s.top_index + p then
        (Int.fdiv s.selected p) * p
      else s.top_index
    let max_start : Int :=
      if s.entries.isEmpty then 0
      else (((s.entries.length - 1) / L.page_size * L.page_size : Nat) : Int)
    { s with top_index := min top max_start }

/-- `CommandController.show_panel` from command.py. -/
def show_panel (s : AppState) : AppState :=
  { s with
    command := s.command.reset_for_open
    focus := "command"
    message := "Run command in " ++ s.cwd }

/-- `CommandController.hide_panel` from command.py. -/
def hide_panel (s : AppState) : AppState :=
  { s with focus := "browser", command := s.command.close }

/-- `CommandController.refresh_search_matches` from command.py. -/
def refresh_search_matches (s : AppState) : AppState :=
  let query := pyLower (pyStrip s.command.search_query)
  if query = "" then
    { s with command := { s.command with search_matches := [], search_pos := -1 } }
  else
    let ms := (s.command.lines.enum.filter fun p => pyIn query (pyLower p.2)).map Prod.fst
    let pos :=
      if ms.isEmpty then -1
      else if s.command.search_pos < 0 ∨ s.command.search_pos ≥ (ms.length : Int) then 0
      else s.command.search_pos
    { s with command := { s.command with search_matches := ms, search_pos := pos } }

/-- `CommandController.append_line` from command.py (append to the panel
scrollback, then recompute search matches). -/
def ctrl_append_line (s : AppState) (line : String) : AppState :=
  refresh_search_matches { s with command := s.command.append_line line }

/-- A completed `subprocess.CompletedProcess` from the remote collaborator. -/
structure RunResult where
  stdout : String
  stderr : String
  returncode : Int
deriving DecidableEq, Repr

/-- Outcome of `RemoteShell.run`: either `subprocess.TimeoutExpired` or a
completed process. -/
inductive RunOutcome where
  | timedOut : RunOutcome
  | completed : RunResult → RunOutcome
deriving DecidableEq, Repr

/-- `CommandController.execute_input` from command.py; `run` is the remote
collaborator oracle (the reply of `self.remote.run` for the command string). -/
def execute_input (run : String → RunOutcome) (s : AppState) : AppState :=
  let user_cmd := pyStrip s.command.input
  if user_cmd = "" then { s with message := "Empty command" }
  else
    let hist :=
      if s.command.history.getLast? = some user_cmd then s.command.history
      else s.command.history ++ [user_cmd]
    let s := { s with
      command := { s.command with
        history := hist, history_index := none, history_stash := "" } }
    let s := ctrl_append_line s ("$ " ++ user_cmd)
    let remote := "cd -- " ++ shlexQuote s.cwd ++ " && " ++ user_cmd
    let s := { s with command := { s.command with scroll := 0 } }
    match run remote with
    | RunOutcome.timedOut =>
      let s := ctrl_append_line s "[timed out]"
      let s := { s with message := "Command timed out" }
      { s with command := s.command.clear_input }
    | RunOutcome.completed result =>
      let out_lines := pySplitlines result.stdout
      let err_lines := pySplitlines result.stderr
      let s :=
        if out_lines.isEmpty ∧ err_lines.isEmpty then ctrl_append_line s "[no output]"
        else
          let s := out_lines.foldl (fun s line => ctrl_append_line s line) s
          err_lines.foldl (fun s line => ctrl_append_line s ("stderr: " ++ line)) s
      let s :=
        if result.returncode ≠ 0 then
          let s := ctrl_append_line s ("[exit " ++ toString result.returncode ++ "]")
          { s with message := "Command failed (" ++ toString result.returncode ++ ")" }
        else { s with message := "Command finished" }
      { s with command := s.command.clear_input }

/-- `CommandController.jump_search` from command.py (Python `%` on ints is
`Int.fmod`). -/
def jump_search (geom : Option (Nat × Nat)) (direction : Int) (s : AppState) :
    AppState :=
  if s.command.search_matches.isEmpty then { s with message := "No search matches" }
  else
    let n := s.command.search_matches.length
    let pos : Int :=
      if s.command.search_pos < 0 then
        if direction ≥ 0 then 0 else (n : Int) - 1
      else Int.fmod (s.command.search_pos + direction) n
    let line_idx := s.command.search_matches.getD pos.toNat 0
    let s := { s with command := { s.command with search_pos := pos } }
    let s := { s with command := scroll_to_line geom (line_idx : Int) s.command }
    { s with message :=
        "Match " ++ toString (pos + 1) ++ "/" ++ toString n ++ " for \x27" ++
          s.command.search_query ++ "\x27" }

/-! Key codes used by input.py: ncurses `KEY_*` constants and ASCII. -/

def KEY_UP : Int := 259
def KEY_DOWN : Int := 258
def KEY_LEFT : Int := 260
def KEY_RIGHT : Int := 261
def KEY_HOME : Int := 262
def KEY_END : Int := 360
def KEY_DC : Int := 330
def KEY_BACKSPACE : Int := 263
def KEY_ENTER : Int := 343
def KEY_PPAGE : Int := 339
def KEY_NPAGE : Int := 338
def KEY_RESIZE : Int := 410

/-- `InputController.set_command_from_history` from input.py. -/
def set_command_from_history (direction : Int) (s : AppState) : AppState :=
  if s.command.history.isEmpty then s
  else
    let c := s.command
    let c :=
      if c.history_index = none then
        { c with history_stash := c.input, history_index := some c.history.length }
      else c
    let next_idx : Int := ((c.history_index.getD 0 : Nat) : Int) + direction
    let next_idx := max 0 (min (c.history.length : Int) next_idx)
    let c := { c with history_index := some next_idx.toNat }
    let c :=
      if next_idx.toNat = c.history.length then { c with input := c.history_stash }
      else { c with input := c.history.getD next_idx.toNat "" }
    { s with command := { c with cursor := c.input.length } }

/-- `InputController.handle_search_key` from input.py. -/
def handle_search_key (geom : Option (Nat × Nat)) (key : Int) (s : AppState) :
    Bool × AppState :=
  if key = 27 then
    (true, { s with
      command := { s.command with search_mode := false }
      message := "Search cancelled" })
  else if key = KEY_ENTER ∨ key = 10 ∨ key = 13 then
    let s := { s with command := { s.command with search_mode := false } }
    let s := refresh_search_matches s
    if s.command.search_matches.isEmpty then
      (true, { s with message :=
        "No matches for \x27" ++ s.command.search_query ++ "\x27" })
    else
      let s := { s with command := { s.command with search_pos := -1 } }
      (true, jump_search geom 1 s)
  else if key = KEY_BACKSPACE ∨ key = 127 ∨ key = 8 then
    if s.command.search_query ≠ "" then
      (true, { s with command := { s.command with
        search_query := String.mk s.command.search_query.toList.dropLast } })
    else (true, s)
  else if key = 21 then
    (true, { s with command := { s.command with search_query := "" } })
  else if 32 ≤ key ∧ key ≤ 126 then
    (true, { s with command := { s.command with
      search_query := s.command.search_query ++ String.singleton (Char.ofNat key.toNat) } })
  else (true, s)

/-- `InputController.handle_command_key` from input.py; `run` is the remote
execution oracle used by the enter key. -/
def handle_command_key (run : String → RunOutcome) (geom : Option (Nat × Nat))
    (key : Int) (s : AppState) : Bool × AppState :=
  if s.command.search_mode then handle_search_key geom key s
  else if key = 27 ∨ key = 29 then (true, hide_panel s)
  else if key = 47 then
    (true, { s with
      command := { s.command with search_mode := true }
      message := "Search output (/ then Enter, ESC cancel, n/N navigate)" })
  else if key = 110 then
    (true, jump_search geom 1 (refresh_search_matches s))
  else if key = 78 then
    (true, jump_search geom (-1) (refresh_search_matches s))
  else if key = KEY_PPAGE then
    let step : Int := max 1 (command_output_rows geom s.command)
    let c := { s.command with scroll := s.command.scroll + step }
    (true, { s with command := clamp_command_scroll geom c })
  else if key = KEY_NPAGE then
    let step : Int := max 1 (command_output_rows geom s.command)
    let c := { s.command with scroll := s.command.scroll - step }
    (true, { s with command := clamp_command_scroll geom c })
  else if key = KEY_ENTER ∨ key = 10 ∨ key = 13 then
    (true, execute_input run s)
  else if key = KEY_BACKSPACE ∨ key = 127 ∨ key = 8 then
    if s.command.cursor > 0 then
      let cs := s.command.input.toList
      (true, { s with command := { s.command with
        input := String.mk (cs.take (s.command.cursor - 1) ++ cs.drop s.command.cursor)
        cursor := s.command.cursor - 1 } })
    else (true, s)
  else if key = KEY_DC then
    if s.command.cursor < s.command.input.length then
      let cs := s.command.input.toList
      (true, { s with command := { s.command with
        input := String.mk (cs.take s.command.cursor ++ cs.drop (s.command.cursor + 1)) } })
    else (true, s)
  else if key = KEY_LEFT then
    (true, { s with command := { s.command with cursor := s.command.cursor - 1 } })
  else if key = KEY_RIGHT then
    (true, { s with command := { s.command with
      cursor := min s.command.input.length (s.command.cursor + 1) } })
  else if key = KEY_HOME then
    (true, { s with command := { s.command with cursor := 0 } })
  else if key = KEY_END then
    (true, { s with command := { s.command with cursor := s.command.input.length } })
  else if key = KEY_UP then
    (true, set_command_from_history (-1) s)
  else if key = KEY_DOWN then
    (true, set_command_from_history 1 s)
  else if key = 21 then
    (true, { s with command := { s.command with
      input := String.mk (s.command.input.toList.drop s.command.cursor)
      cursor := 0 } })
  else if 32 ≤ key ∧ key ≤ 126 then
    let cs := s.command.input.toList
    (true, { s with command := { s.command with
      input := String.mk
        (cs.take s.command.cursor ++ [Char.ofNat key.toNat] ++ cs.drop s.command.cursor)
      cursor := s.command.cursor + 1 } })
  else (true, s)

/-- `RexApp._move_selection` from app.py. -/
def move_selection (delta : Int) (s : AppState) : AppState :=
  if s.entries.isEmpty then s
  else { s with
    selected := max 0 (min ((s.entries.length : Int) - 1) (s.selected + delta)) }

/-- `RexApp._move_selection_grid` from app.py. -/
def move_selection_grid (geom : Option (Nat × Nat)) (d_row d_col : Int)
    (s : AppState) : AppState :=
  if s.entries.isEmpty then s
  else
    let L := browser_geom geom s
    if L.rows = 0 then s
    else
      let delta := d_row + d_col * (L.rows : Int)
      if delta = 0 then s
      else
        let target := s.selected + delta
        if target < 0 ∨ target ≥ (s.entries.length : Int) then s
        else { s with selected := target }

/-- Reply of `RemoteShell.list_directory`: the `(resolved_path, entries, error)`
triple the collaborator contract returns. -/
structure ListResult where
  resolved : Option String
  parsed : Option (List RemoteEntry)
  err : Option String
deriving DecidableEq, Repr

/-- `RexApp._reload_entries` from app.py; `res` is the collaborator's reply
for listing the current `cwd`. -/
def reload_entries (res : ListResult) (s : AppState) : AppState :=
  if res.err ≠ none ∨ res.parsed = none ∨ res.resolved = none then
    { s with message := pyOrStr res.err "Error: failed to list directory" }
  else
    let parsed := res.parsed.getD []
    { s with
      cwd := res.resolved.getD ""
      entries := parsed
      selected := 0
      top_index := 0
      message := "Loaded " ++ toString ((parsed.length : Int) - 1) ++ " entries" }

/-- `RexApp._change_directory` from app.py; `res` is the collaborator's reply
for listing the target path.  Returns the Python method's boolean result
together with the updated state. -/
def change_directory (res : ListResult) (s : AppState) : Bool × AppState :=
  let old_cwd := s.cwd
  if res.err ≠ none ∨ res.parsed = none ∨ res.resolved = none then
    (false, { s with message := pyOrStr res.err "Failed to change directory" })
  else
    let parsed := res.parsed.getD []
    let cwd := res.resolved.getD ""
    let count := toString ((parsed.length : Int) - 1)
    let msg :=
      if old_cwd ≠ cwd then "Entered " ++ cwd ++ " (" ++ count ++ " entries)"
      else "Staying in " ++ cwd ++ " (" ++ count ++ " entries)"
    (true, { s with
      cwd := cwd, entries := parsed, selected := 0, top_index := 0, message := msg })

/-- The collaborator callables injected into `InputController.__init__`
(app.py wires them to `RexApp` methods; the browser-state claims are settled
against those methods directly).  `parent_of` models
`str(PurePosixPath(path).parent)`. -/
structure BrowserCallbacks where
  move_selection_grid : Int → Int → AppState → AppState
  move_selection : Int → AppState → AppState
  enter_selected : AppState → AppState
  change_directory : String → AppState → Bool × AppState
  reload_entries : AppState → AppState
  current_entry : AppState → Option RemoteEntry
  edit_file : String → AppState → AppState
  open_file : String → AppState → AppState
  parent_of : String → String

/-- `InputController.handle_key` from input.py.  Returns the Python method's
boolean (`false` = terminate the session) with the updated state. -/
def handle_key (cb : BrowserCallbacks) (run : String → RunOutcome)
    (geom : Option (Nat × Nat)) (key : Int) (s : AppState) : Bool × AppState :=
  if key = 113 ∨ key = 81 then (false, s)
  else if key = KEY_RESIZE then (true, s)
  else if s.focus = "command" then handle_command_key run geom key s
  else
    let s :=
      if key = KEY_UP ∨ key = 107 then cb.move_selection_grid (-1) 0 s
      else if key = KEY_DOWN ∨ key = 106 then cb.move_selection_grid 1 0 s
      else if key = KEY_LEFT ∨ key = 104 then cb.move_selection_grid 0 (-1) s
      else if key = KEY_RIGHT ∨ key = 108 then cb.move_selection_grid 0 1 s
      else if key = KEY_NPAGE then cb.move_selection 10 s
      else if key = KEY_PPAGE then cb.move_selection (-10) s
      else if key = KEY_ENTER ∨ key = 10 ∨ key = 13 then cb.enter_selected s
      else if key = 112 then
        let tgt := cb.parent_of s.cwd
        let tgt := if tgt = "" then "/" else tgt
        let r := cb.change_directory tgt s
        if r.1 then r.2
        else { r.2 with message := "Error: failed to change to parent directory" }
      else if key = 114 then cb.reload_entries s
      else if key = 101 then
        match cb.current_entry s with
        | some e => if e.is_dir = false ∧ e.name ≠ ".." then cb.edit_file e.name s else s
        | none => s
      else if key = 111 then
        match cb.current_entry s with
        | some e => if e.is_dir = false ∧ e.name ≠ ".." then cb.open_file e.name s else s
        | none => s
      else if key = 58 ∨ key = 115 ∨ key = 83 then show_panel s
      else s
    (true, ensure_visible geom s)

/-! Concrete states and oracles used to instantiate the theorems below. -/

/-- The spec's search scenario: scrollback `["a","b","abc","b"]`, query `"b"`. -/
def exSearch : AppState :=
  { host := "h"
    cwd := "/"
    command := { visible := true, lines := ["a", "b", "abc", "b"], search_query := "b" } }

/-- The search scenario with matches computed but no match selected yet. -/
def exSearchUnset : AppState :=
  { exSearch with
    command := { exSearch.command with search_matches := [1, 2, 3], search_pos := -1 } }

/-- A session with the command panel focused and prior scrollback and history. -/
def exPanel : AppState :=
  { host := "h"
    cwd := "/"
    focus := "command"
    command := { visible := true, lines := ["old"], history := ["pwd"] } }

/-- Ten one-character file entries. -/
def exEntries : List RemoteEntry :=
  (List.range 10).map fun i => { name := toString i, is_dir := false }

/-- A browser state whose `top_index` is inside the visible window but not
page-aligned (page size is 3 on a 7x5 terminal). -/
def exGrid : AppState :=
  { host := "h", cwd := "/", entries := exEntries, selected := 4, top_index := 4 }

/-- Identity collaborator callbacks, for exercising `handle_key` alone. -/
def idCallbacks : BrowserCallbacks :=
  { move_selection_grid := fun _ _ s => s
    move_selection := fun _ s => s
    enter_selected := fun s => s
    change_directory := fun _ s => (true, s)
    reload_entries := fun s => s
    current_entry := fun _ => none
    edit_file := fun _ s => s
    open_file := fun _ s => s
    parent_of := fun p => p }

/-- A remote oracle that times every command out. -/
def timeoutRun : String → RunOutcome := fun _ => RunOutcome.timedOut

/-- The remote oracle of the spec's failure example: exit code 17, empty
stdout, stderr `problem` with a trailing newline. -/
def exFailRun : String → RunOutcome :=
  fun _ => RunOutcome.completed { stdout := "", stderr := "problem\n", returncode := 17 }

/-- A command panel editing the input `false`. -/
def exFalse : AppState :=
  { host := "h", cwd := "/tmp", focus := "command"
    command := { visible := true, input := "false" } }

/-- A command panel whose input is whitespace-only. -/
def exBlank : AppState :=
  { host := "h", cwd := "/tmp", focus := "command"
    command := { visible := true, input := "   ", cursor := 2 } }

/-- A failed listing reply: transport timeout. -/
def exFailList : ListResult := { resolved := none, parsed := none, err := some "Listing timed out" }

/-- A session browsing with non-empty history and a fresh input line. -/
def exHist : AppState :=
  { host := "h", cwd := "/", focus := "command"
    command := { visible := true, input := "X", history := ["a", "b"] } }

/-- A whole sequence of `append_line` calls, oldest first. -/
def append_lines (c : CommandPanelState) (xs : List String) : CommandPanelState :=
  xs.foldl CommandPanelState.append_line c

/-- The command-panel history-browsing regime entered by
`set_command_from_history`: history `h`, stashed input `stash`, current
pointer `i`, with the input line determined by the pointer. -/
def HistBrowsing (h : List String) (stash : String) (i : Nat) (s : AppState) : Prop :=
  s.command.history = h ∧
  s.command.history_stash = stash ∧
  s.command.history_index = some i ∧
  i ≤ h.length ∧
  s.command.input = (if i = h.length then stash else h.getD i "")

/-! Theorems. -/

/-- C1: contrary to the spec, the quit binding does fire while
`focus == command`: `handle_key` tests for the quit key before consulting the
focus, so pressing `q` (113) or `Q` (81) while the command panel owns input
terminates the session instead of inserting a literal character. -/
theorem quit_key_fires_even_with_command_focus
    (cb : BrowserCallbacks) (run : String → RunOutcome) (geom : Option (Nat × Nat))
    (s : AppState) (_h : s.focus = "command") :
    handle_key cb run geom 113 s = (false, s) ∧
      handle_key cb run geom 81 s = (false, s) := by
  constructor <;> simp [handle_key]

/-- Witness for `quit_key_fires_even_with_command_focus` at a concrete
command-focused session. -/
theorem quit_key_fires_even_with_command_focus_witness :
    handle_key idCallbacks timeoutRun none 113 exPanel = (false, exPanel) ∧
      handle_key idCallbacks timeoutRun none 81 exPanel = (false, exPanel) :=
  quit_key_fires_even_with_command_focus idCallbacks timeoutRun none exPanel rfl

/-- C2 counterexample: on the scrollback `["a","b","abc","b"]` with query
`"b"`, the recomputed matches are not `[1, 3]` — case-insensitive substring
matching also hits `"abc"` at index 2. -/
theorem search_matches_example_not_one_three :
    (refresh_search_matches exSearch).command.search_matches ≠ [1, 3] := by
  decide

/-- C2 amended: the matches are `[1, 2, 3]`; `refresh_search_matches` lands on
the first match (line 1), repeated forward `jump_search` cycles the selected
match through lines 2, 3 and back to 1, and a backward `jump_search` from an
unset position (`search_pos == -1`) selects the last match (line 3) first. -/
theorem search_matches_example_cycle :
    (refresh_search_matches exSearch).command.search_matches = [1, 2, 3] ∧
    (refresh_search_matches exSearch).command.search_pos = 0 ∧
    (jump_search none 1 (refresh_search_matches exSearch)).command.search_pos = 1 ∧
    (jump_search none 1 (jump_search none 1
      (refresh_search_matches exSearch))).command.search_pos = 2 ∧
    (jump_search none 1 (jump_search none 1 (jump_search none 1
      (refresh_search_matches exSearch)))).command.search_pos = 0 ∧
    (jump_search none (-1) exSearchUnset).command.search_pos = 2 ∧
    (jump_search none (-1) exSearchUnset).command.search_matches.getD 2 0 = 3 := by
  decide

/-- C3 counterexample: closing and reopening the panel does not leave the
scrollback unchanged — `reset_for_open` clears `lines` (here `["old"]`). -/
theorem panel_reopen_discards_scrollback :
    (show_panel (hide_panel exPanel)).command.lines ≠ exPanel.command.lines := by
  decide

/-- C3 amended: across a close/reopen of the command panel the `history`
sequence is preserved, but the scrollback `lines` is cleared (panel-open is a
hard reset of the scrollback, not a resume). -/
theorem panel_reopen_keeps_history_clears_lines (s : AppState) :
    (show_panel (hide_panel s)).command.history = s.command.history ∧
      (show_panel (hide_panel s)).command.lines = [] :=
  ⟨rfl, rfl⟩

/-- C6: a grid move converts `(d_row, d_col)` to the flat, column-major delta
`d_row + d_col * rows`; a target outside `[0, entry_count)` is rejected with
the state left untouched (in particular `selected` and `top_index`), while an
in-bounds non-zero delta moves only `selected`. -/
theorem grid_move_flat_delta_and_rejection (geom : Option (Nat × Nat))
    (d_row d_col : Int) (s : AppState) (h : s.entries ≠ []) :
    (s.selected + (d_row + d_col * ((browser_geom geom s).rows : Int)) < 0 ∨
        (s.entries.length : Int) ≤
          s.selected + (d_row + d_col * ((browser_geom geom s).rows : Int)) →
      move_selection_grid geom d_row d_col s = s) ∧
    (d_row + d_col * ((browser_geom geom s).rows : Int) ≠ 0 →
      0 ≤ s.selected + (d_row + d_col * ((browser_geom geom s).rows : Int)) →
      s.selected + (d_row + d_col * ((browser_geom geom s).rows : Int)) <
        (s.entries.length : Int) →
      move_selection_grid geom d_row d_col s =
        { s with selected :=
            s.selected + (d_row + d_col * ((browser_geom geom s).rows : Int)) }) := by
  have hrows : (browser_geom geom s).rows ≠ 0 := by
    unfold browser_geom browser_layout
    simp
  unfold move_selection_grid
  rw [if_neg (by simpa [List.isEmpty_iff] using h), if_neg hrows]
  constructor
  · intro hout
    rcases eq_or_ne (d_row + d_col * ((browser_geom geom s).rows : Int)) 0 with h0 | h0
    · rw [if_pos h0]
    · rw [if_neg h0, if_pos (by omega)]
  · intro h0 hlo hhi
    rw [if_neg h0, if_neg (by omega)]

/-- Witness for `grid_move_flat_delta_and_rejection`: on ten entries with
`selected = 4`, a move of 100 rows is rejected outright. -/
theorem grid_move_flat_delta_and_rejection_witness :
    move_selection_grid none 100 0 exGrid = exGrid :=
  (grid_move_flat_delta_and_rejection none 100 0 exGrid (by decide)).1 (by decide)

/-- C9: when a directory listing attempt fails (timeout, remote error, or
empty response — i.e. the collaborator returned an error or no listing), both
`_reload_entries` and `_change_directory` update only the status message:
`cwd`, `entries`, `selected` and `top_index` keep their previous values and no
partial entries list is installed. -/
theorem listing_failure_changes_only_message (res : ListResult) (s : AppState)
    (h : res.err ≠ none ∨ res.parsed = none ∨ res.resolved = none) :
    reload_entries res s =
        { s with message := pyOrStr res.err "Error: failed to list directory" } ∧
      change_directory res s =
        (false, { s with message := pyOrStr res.err "Failed to change directory" }) := by
  unfold reload_entries change_directory
  rw [if_pos h, if_pos h]
  exact ⟨rfl, rfl⟩

/-- Witness for `listing_failure_changes_only_message` at a concrete timeout
reply. -/
theorem listing_failure_changes_only_message_witness :
    reload_entries exFailList exPanel =
        { exPanel with message := pyOrStr exFailList.err "Error: failed to list directory" } ∧
      change_directory exFailList exPanel =
        (false, { exPanel with message := pyOrStr exFailList.err "Failed to change directory" }) :=
  listing_failure_changes_only_message exFailList exPanel (Or.inl (by decide))

/-- C10: a blank or whitespace-only input is rejected by `execute_input` with
only the status message changed to `Empty command`; the input line, cursor,
scrollback, history, history browsing state, scroll and search state all keep
their prior values (the unconditional input-clearing does not apply). -/
theorem blank_input_changes_only_message (run : String → RunOutcome)
    (s : AppState) (h : pyStrip s.command.input = "") :
    execute_input run s = { s with message := "Empty command" } := by
  unfold execute_input
  rw [h]
  simp

/-- Witness for `blank_input_changes_only_message` at a whitespace-only
input. -/
theorem blank_input_changes_only_message_witness :
    execute_input timeoutRun exBlank = { exBlank with message := "Empty command" } :=
  blank_input_changes_only_message timeoutRun exBlank (by decide)

/-- `append_line` never changes the capacity. -/
theorem append_line_max_lines (c : CommandPanelState) (x : String) :
    (c.append_line x).max_lines = c.max_lines := by
  unfold CommandPanelState.append_line
  dsimp only
  split <;> rfl

/-- The scrollback produced by one `append_line`: append, then keep the last
`max_lines` entries if over capacity. -/
theorem append_line_lines (c : CommandPanelState) (x : String) :
    (c.append_line x).lines =
      if (c.lines ++ [x]).length > c.max_lines
      then pyTakeLast c.max_lines (c.lines ++ [x])
      else c.lines ++ [x] := by
  unfold CommandPanelState.append_line
  dsimp only
  split <;> rfl

/-- One `append_line` step preserves the `lines = suffix of everything ever
appended` characterization. -/
theorem append_line_suffix (c : CommandPanelState) (x : String) (ys : List String)
    (hm : 1 ≤ c.max_lines) (hl : c.lines = ys.drop (ys.length - c.max_lines)) :
    (c.append_line x).lines = (ys ++ [x]).drop ((ys ++ [x]).length - c.max_lines) := by
  rw [append_line_lines, hl]
  by_cases hcase : ys.length < c.max_lines
  · have hd0 : ys.length - c.max_lines = 0 := by omega
    rw [hd0, List.drop_zero]
    rw [if_neg (by simp only [List.length_append, List.length_singleton]; omega)]
    have hd1 : (ys ++ [x]).length - c.max_lines = 0 := by
      simp only [List.length_append, List.length_singleton]; omega
    rw [hd1, List.drop_zero]
  · have hdlen : (ys.drop (ys.length - c.max_lines)).length = c.max_lines := by
      rw [List.length_drop]; omega
    rw [if_pos (by simp only [List.length_append, List.length_singleton, hdlen]; omega)]
    unfold pyTakeLast
    rw [if_neg (by omega)]
    have hidx : (ys.drop (ys.length - c.max_lines) ++ [x]).length - c.max_lines = 1 := by
      simp only [List.length_append, List.length_singleton, hdlen]; omega
    rw [hidx, ← List.drop_append_of_le_length (by omega), List.drop_drop]
    congr 1
    simp only [List.length_append, List.length_singleton]
    omega

/-- A whole sequence of appends yields exactly the suffix of the appended
stream that fits the capacity. -/
theorem append_lines_suffix (xs : List String) (ys : List String)
    (c : CommandPanelState) (hm : 1 ≤ c.max_lines)
    (hl : c.lines = ys.drop (ys.length - c.max_lines)) :
    (append_lines c xs).lines =
      (ys ++ xs).drop ((ys ++ xs).length - c.max_lines) := by
  induction xs generalizing ys c with
  | nil => simpa [append_lines] using hl
  | cons x xs ih =>
    have hmax := append_line_max_lines c x
    have hstep := append_line_suffix c x ys hm hl
    have hrec := ih (ys ++ [x]) (c.append_line x) (by rw [hmax]; exact hm)
      (by rw [hmax]; exact hstep)
    rw [hmax] at hrec
    simpa [append_lines, List.append_assoc] using hrec

/-- C5: starting from an empty scrollback, any sequence of `append_line`
calls leaves `lines` equal to the suffix of length `min(total appended,
max_lines)` of all lines ever appended — so the capacity is never exceeded,
the oldest lines are evicted first, and the order of the survivors is
preserved. -/
theorem scrollback_fifo_suffix (xs : List String) (c : CommandPanelState)
    (h0 : c.lines = []) (hm : 1 ≤ c.max_lines) :
    (append_lines c xs).lines = xs.drop (xs.length - c.max_lines) ∧
      (append_lines c xs).lines.length = min xs.length c.max_lines := by
  have h := append_lines_suffix xs [] c hm (by simpa using h0)
  simp only [List.nil_append] at h
  refine ⟨h, ?_⟩
  rw [h, List.length_drop]
  omega

/-- Witness for `scrollback_fifo_suffix`: capacity 3, four appends keep the
last three lines. -/
theorem scrollback_fifo_suffix_witness :
    (append_lines { max_lines := 3 } ["1", "2", "3", "4"]).lines =
        ["1", "2", "3", "4"].drop (["1", "2", "3", "4"].length - 3) ∧
      (append_lines { max_lines := 3 } ["1", "2", "3", "4"]).lines.length =
        min ["1", "2", "3", "4"].length 3 :=
  scrollback_fifo_suffix ["1", "2", "3", "4"] { max_lines := 3 } rfl (by decide)

/-- Entering history browsing with the "older" key: the current input is
stashed and the pointer lands on the newest entry. -/
theorem hist_start (s : AppState) (hne : s.command.history ≠ [])
    (hidx : s.command.history_index = none) :
    HistBrowsing s.command.history s.command.input (s.command.history.length - 1)
      (set_command_from_history (-1) s) := by
  have hL : 1 ≤ s.command.history.length := List.length_pos.mpr hne
  unfold set_command_from_history
  rw [if_neg (by simp [List.isEmpty_iff, hne])]
  simp only [hidx, reduceIte, Option.getD_some]
  have hclamp :
      (max 0 (min (s.command.history.length : Int)
        ((s.command.history.length : Int) + -1))).toNat =
        s.command.history.length - 1 := by omega
  rw [hclamp]
  rw [if_neg (by omega)]
  exact ⟨rfl, rfl, rfl, by omega, by rw [if_neg (by omega)]⟩

/-- An "older" step while browsing moves the pointer one entry back,
saturating at the oldest entry. -/
theorem hist_older_step (h : List String) (stash : String) (i : Nat) (s : AppState)
    (hne : h ≠ []) (hb : HistBrowsing h stash i s) :
    HistBrowsing h stash (i - 1) (set_command_from_history (-1) s) := by
  obtain ⟨h1, h2, h3, h4, h5⟩ := hb
  have hL : 1 ≤ h.length := List.length_pos.mpr hne
  unfold set_command_from_history
  rw [if_neg (by simp [List.isEmpty_iff, h1, hne])]
  simp only [h3, h1, reduceCtorEq, reduceIte, Option.getD_some]
  have hclamp : (max 0 (min (h.length : Int) ((i : Int) + -1))).toNat = i - 1 := by
    omega
  rw [hclamp]
  rw [if_neg (by omega)]
  exact ⟨rfl, h2, rfl, by omega, by rw [if_neg (by omega)]⟩

/-- A "newer" step while browsing moves the pointer one entry forward,
saturating one past the newest entry (where the stash is restored). -/
theorem hist_newer_step (h : List String) (stash : String) (i : Nat) (s : AppState)
    (hne : h ≠ []) (hb : HistBrowsing h stash i s) :
    HistBrowsing h stash (min h.length (i + 1)) (set_command_from_history 1 s) := by
  obtain ⟨h1, h2, h3, h4, h5⟩ := hb
  unfold set_command_from_history
  rw [if_neg (by simp [List.isEmpty_iff, h1, hne])]
  simp only [h3, h1, reduceCtorEq, reduceIte, Option.getD_some]
  have hclamp : (max 0 (min (h.length : Int) ((i : Int) + 1))).toNat =
      min h.length (i + 1) := by omega
  rw [hclamp]
  by_cases hend : min h.length (i + 1) = h.length
  · rw [if_pos hend]
    exact ⟨rfl, h2, rfl, by omega, by rw [if_pos hend]; exact h2⟩
  · rw [if_neg hend]
    exact ⟨rfl, h2, rfl, by omega, by rw [if_neg hend]⟩

/-- Iterated "older" steps subtract from the pointer, saturating at zero. -/
theorem hist_older_iter (h : List String) (stash : String) (hne : h ≠ [])
    (k : Nat) (i : Nat) (s : AppState) (hb : HistBrowsing h stash i s) :
    HistBrowsing h stash (i - k) ((set_command_from_history (-1))^[k] s) := by
  induction k generalizing i s with
  | zero => simpa using hb
  | succ k ih =>
    rw [Function.iterate_succ_apply]
    have := ih (i - 1) (set_command_from_history (-1) s)
      (hist_older_step h stash i s hne hb)
    have harith : i - 1 - k = i - (k + 1) := by omega
    rwa [harith] at this

/-- Iterated "newer" steps add to the pointer, saturating one past the
newest entry. -/
theorem hist_newer_iter (h : List String) (stash : String) (hne : h ≠ [])
    (k : Nat) (i : Nat) (s : AppState) (hb : HistBrowsing h stash i s) :
    HistBrowsing h stash (min h.length (i + k)) ((set_command_from_history 1)^[k] s) := by
  induction k generalizing i s with
  | zero =>
    have h4 := hb.2.2.2.1
    have hmin : min h.length i = i := by omega
    simpa [hmin] using hb
  | succ k ih =>
    rw [Function.iterate_succ_apply]
    have := ih (min h.length (i + 1)) (set_command_from_history 1 s)
      (hist_newer_step h stash i s hne hb)
    have harith : min h.length (min h.length (i + 1) + k) = min h.length (i + (k + 1)) := by
      omega
    rwa [harith] at this

/-- C8: with non-empty history, starting outside history browsing
(`history_index == None`) from any input line, pressing the "older" history
key `k ≥ 1` times and then the "newer" key `k` times restores the input line
exactly (the stash taken when browsing started is restored on returning past
the newest entry). -/
theorem history_stash_round_trip (s : AppState) (k : Nat)
    (hne : s.command.history ≠ []) (hidx : s.command.history_index = none)
    (hk : 1 ≤ k) :
    ((set_command_from_history 1)^[k]
        ((set_command_from_history (-1))^[k] s)).command.input =
      s.command.input := by
  obtain ⟨k, rfl⟩ : ∃ j, k = j + 1 := ⟨k - 1, by omega⟩
  have hL : 1 ≤ s.command.history.length := List.length_pos.mpr hne
  have h1 := hist_start s hne hidx
  have h2 := hist_older_iter s.command.history s.command.input hne k
    (s.command.history.length - 1) (set_command_from_history (-1) s) h1
  rw [show (set_command_from_history (-1))^[k] (set_command_from_history (-1) s) =
      (set_command_from_history (-1))^[k + 1] s from
    (Function.iterate_succ_apply (set_command_from_history (-1)) k s).symm] at h2
  have h3 := hist_newer_iter s.command.history s.command.input hne (k + 1)
    (s.command.history.length - 1 - k) ((set_command_from_history (-1))^[k + 1] s) h2
  have hend : min s.command.history.length
      (s.command.history.length - 1 - k + (k + 1)) = s.command.history.length := by
    omega
  rw [hend] at h3
  obtain ⟨_, _, _, _, hinp⟩ := h3
  rw [hinp, if_pos rfl]

/-- Witness for `history_stash_round_trip`: two entries of history, two
"older" presses then two "newer" presses restore the input `X`. -/
theorem history_stash_round_trip_witness :
    ((set_command_from_history 1)^[2]
        ((set_command_from_history (-1))^[2] exHist)).command.input =
      exHist.command.input :=
  history_stash_round_trip exHist 2 (by decide) rfl (by decide)

/-- The grid page always has at least one cell. -/
theorem browser_layout_page_size_pos (e : List RemoteEntry) (h w : Nat) :
    0 < (browser_layout e h w).page_size := by
  unfold browser_layout
  dsimp only
  exact Nat.mul_pos (by omega) (by omega)

/-- Snapping to the page boundary containing `sel`: the snapped origin is at
most `sel`, the page starting there covers `sel`, and it is page-aligned. -/
theorem snap_bounds (sel p : Int) (hp : 0 < p) :
    sel.fdiv p * p ≤ sel ∧ sel < sel.fdiv p * p + p ∧ p ∣ sel.fdiv p * p := by
  have hfd := Int.fdiv_eq_ediv sel (le_of_lt hp)
  have hdm := Int.ediv_add_emod sel p
  have hlt := Int.emod_lt_of_pos sel hp
  have hnn := Int.emod_nonneg sel (ne_of_gt hp)
  refine ⟨?_, ?_, ?_⟩
  · rw [hfd, mul_comm]; linarith
  · rw [hfd, mul_comm]; linarith
  · rw [hfd]; exact dvd_mul_left p (sel / p)

/-- The last valid page start: it is within one page of the last entry and is
page-aligned. -/
theorem max_start_facts (n pn : Nat) (hp : 0 < pn) (hn : 1 ≤ n) :
    ((n : Int) - 1) < (((n - 1) / pn * pn : Nat) : Int) + (pn : Int) ∧
      (pn : Int) ∣ (((n - 1) / pn * pn : Nat) : Int) := by
  constructor
  · have h1 : n - 1 < (n - 1) / pn * pn + pn := Nat.lt_div_mul_add hp
    have h2 : ((n - 1 : Nat) : Int) < (((n - 1) / pn * pn : Nat) : Int) + (pn : Nat) := by
      exact_mod_cast h1
    omega
  · exact ⟨((n - 1) / pn : Nat), by push_cast; ring⟩

/-- What `ensure_visible` does on a non-empty listing, as one equation. -/
theorem ensure_visible_eq (geom : Option (Nat × Nat)) (s : AppState)
    (hne : s.entries ≠ []) (hp0 : (browser_geom geom s).page_size ≠ 0) :
    ensure_visible geom s =
      { s with top_index :=
          (min
            (if s.selected < s.top_index ∨
                s.selected ≥ s.top_index + ((browser_geom geom s).page_size : Int) then
              s.selected.fdiv ((browser_geom geom s).page_size : Int) *
                ((browser_geom geom s).page_size : Int)
            else s.top_index)
            (((s.entries.length - 1) / (browser_geom geom s).page_size *
                (browser_geom geom s).page_size : Nat) : Int)) } := by
  unfold ensure_visible
  dsimp only
  rw [if_neg hp0]
  have hEmpty : s.entries.isEmpty = false := by simp [List.isEmpty_iff, hne]
  simp only [hEmpty, Bool.false_eq_true, if_false]

/-- C4 counterexample: on a 7x5 terminal the page size is 3; with ten
entries, `selected = 4` in bounds and `top_index = 4` already inside the
window, `ensure_visible` leaves `top_index = 4`, which is not a multiple of
the page size — the alignment invariant does not hold for every state. -/
theorem ensure_visible_misaligned_example :
    (browser_geom (some (7, 5)) exGrid).page_size = 3 ∧
      (0 : Int) ≤ exGrid.selected ∧
      exGrid.selected < (exGrid.entries.length : Int) ∧
      (ensure_visible (some (7, 5)) exGrid).top_index = 4 ∧
      Int.fmod (ensure_visible (some (7, 5)) exGrid).top_index
          ((browser_geom (some (7, 5)) exGrid).page_size : Int) ≠ 0 := by
  decide

/-- C4 amended: for every terminal geometry and non-empty entry list with
`selected` in `[0, entry_count)`, after `ensure_visible` the window invariant
`top_index ≤ selected < top_index + page_size` holds (with
`page_size = rows * columns` and `selected` untouched); the alignment
`top_index mod page_size == 0` is guaranteed only when the incoming
`top_index` was itself page-aligned (the snap and the clamp both produce
aligned origins, but an already-visible selection keeps the old origin). -/
theorem ensure_visible_window_invariant (geom : Option (Nat × Nat)) (s : AppState)
    (hne : s.entries ≠ []) (_hlo : 0 ≤ s.selected)
    (hhi : s.selected < (s.entries.length : Int)) :
    (browser_geom geom s).rows * (browser_geom geom s).cols =
        (browser_geom geom s).page_size ∧
      (ensure_visible geom s).selected = s.selected ∧
      (ensure_visible geom s).top_index ≤ s.selected ∧
      s.selected < (ensure_visible geom s).top_index +
          ((browser_geom geom s).page_size : Int) ∧
      (Int.fmod s.top_index ((browser_geom geom s).page_size : Int) = 0 →
        Int.fmod (ensure_visible geom s).top_index
            ((browser_geom geom s).page_size : Int) = 0) := by
  have hp : 0 < (browser_geom geom s).page_size := browser_layout_page_size_pos _ _ _
  have hpI : (0 : Int) < ((browser_geom geom s).page_size : Int) := by exact_mod_cast hp
  have hnn : 1 ≤ s.entries.length := List.length_pos.mpr hne
  obtain ⟨hms_lt, hms_dvd⟩ :=
    max_start_facts s.entries.length (browser_geom geom s).page_size hp hnn
  obtain ⟨hsn_le, hsn_lt, hsn_dvd⟩ :=
    snap_bounds s.selected ((browser_geom geom s).page_size : Int) hpI
  rw [ensure_visible_eq geom s hne (Nat.pos_iff_ne_zero.mp hp)]
  dsimp only
  refine ⟨rfl, rfl, ?_, ?_, ?_⟩
  · by_cases hsnap : s.selected < s.top_index ∨
        s.selected ≥ s.top_index + ((browser_geom geom s).page_size : Int)
    · rw [if_pos hsnap]
      exact le_trans (min_le_left _ _) hsn_le
    · rw [if_neg hsnap]
      push_neg at hsnap
      exact le_trans (min_le_left _ _) hsnap.1
  · by_cases hsnap : s.selected < s.top_index ∨
        s.selected ≥ s.top_index + ((browser_geom geom s).page_size : Int)
    · rw [if_pos hsnap]
      rcases min_choice
          (s.selected.fdiv ((browser_geom geom s).page_size : Int) *
            ((browser_geom geom s).page_size : Int))
          (((s.entries.length - 1) / (browser_geom geom s).page_size *
              (browser_geom geom s).page_size : Nat) : Int) with hm | hm <;> rw [hm]
      · exact hsn_lt
      · omega
    · rw [if_neg hsnap]
      push_neg at hsnap
      rcases min_choice s.top_index
          (((s.entries.length - 1) / (browser_geom geom s).page_size *
              (browser_geom geom s).page_size : Nat) : Int) with hm | hm <;> rw [hm]
      · exact hsnap.2
      · omega
  · intro halign
    rw [Int.fmod_eq_emod _ (le_of_lt hpI)] at halign
    rw [Int.fmod_eq_emod _ (le_of_lt hpI)]
    have hdvd_top : ((browser_geom geom s).page_size : Int) ∣
        (if s.selected < s.top_index ∨
            s.selected ≥ s.top_index + ((browser_geom geom s).page_size : Int) then
          s.selected.fdiv ((browser_geom geom s).page_size : Int) *
            ((browser_geom geom s).page_size : Int)
        else s.top_index) := by
      by_cases hsnap : s.selected < s.top_index ∨
          s.selected ≥ s.top_index + ((browser_geom geom s).page_size : Int)
      · rw [if_pos hsnap]; exact hsn_dvd
      · rw [if_neg hsnap]; exact Int.dvd_of_emod_eq_zero halign
    have hdvd_min : ((browser_geom geom s).page_size : Int) ∣
        min
          (if s.selected < s.top_index ∨
              s.selected ≥ s.top_index + ((browser_geom geom s).page_size : Int) then
            s.selected.fdiv ((browser_geom geom s).page_size : Int) *
              ((browser_geom geom s).page_size : Int)
          else s.top_index)
          (((s.entries.length - 1) / (browser_geom geom s).page_size *
              (browser_geom geom s).page_size : Nat) : Int) := by
      rcases min_choice
          (if s.selected < s.top_index ∨
              s.selected ≥ s.top_index + ((browser_geom geom s).page_size : Int) then
            s.selected.fdiv ((browser_geom geom s).page_size : Int) *
              ((browser_geom geom s).page_size : Int)
          else s.top_index)
          (((s.entries.length - 1) / (browser_geom geom s).page_size *
              (browser_geom geom s).page_size : Nat) : Int) with hm | hm <;> rw [hm]
      · exact hdvd_top
      · exact hms_dvd
    exact Int.emod_eq_zero_of_dvd hdvd_min

/-- Witness for `ensure_visible_window_invariant`: a selection below the
window on a 7x5 terminal snaps the page origin to 3 — aligned and covering
the selection. -/
theorem ensure_visible_window_invariant_witness :
    (browser_geom (some (7, 5)) exGrid).rows * (browser_geom (some (7, 5)) exGrid).cols =
        (browser_geom (some (7, 5)) exGrid).page_size ∧
      (ensure_visible (some (7, 5)) exGrid).selected = exGrid.selected ∧
      (ensure_visible (some (7, 5)) exGrid).top_index ≤ exGrid.selected ∧
      exGrid.selected < (ensure_visible (some (7, 5)) exGrid).top_index +
          ((browser_geom (some (7, 5)) exGrid).page_size : Int) ∧
      (Int.fmod exGrid.top_index ((browser_geom (some (7, 5)) exGrid).page_size : Int) = 0 →
        Int.fmod (ensure_visible (some (7, 5)) exGrid).top_index
            ((browser_geom (some (7, 5)) exGrid).page_size : Int) = 0) :=
  ensure_visible_window_invariant (some (7, 5)) exGrid (by decide) (by decide) (by decide)

/-- Recomputing search matches touches only the search fields. -/
theorem refresh_lines (s : AppState) :
    (refresh_search_matches s).command.lines = s.command.lines := by
  unfold refresh_search_matches
  dsimp only
  split <;> rfl

/-- Recomputing search matches leaves the input line untouched. -/
theorem refresh_input (s : AppState) :
    (refresh_search_matches s).command.input = s.command.input := by
  unfold refresh_search_matches
  dsimp only
  split <;> rfl

/-- Recomputing search matches leaves the cursor untouched. -/
theorem refresh_cursor (s : AppState) :
    (refresh_search_matches s).command.cursor = s.command.cursor := by
  unfold refresh_search_matches
  dsimp only
  split <;> rfl

/-- Recomputing search matches leaves the status message untouched. -/
theorem refresh_message (s : AppState) :
    (refresh_search_matches s).message = s.message := by
  unfold refresh_search_matches
  dsimp only
  split <;> rfl

/-- Recomputing search matches leaves the capacity untouched. -/
theorem refresh_max_lines (s : AppState) :
    (refresh_search_matches s).command.max_lines = s.command.max_lines := by
  unfold refresh_search_matches
  dsimp only
  split <;> rfl

/-- `append_line` leaves the input line untouched. -/
theorem append_line_input (c : CommandPanelState) (x : String) :
    (c.append_line x).input = c.input := by
  unfold CommandPanelState.append_line
  dsimp only
  split <;> rfl

/-- `append_line` leaves the cursor untouched. -/
theorem append_line_cursor (c : CommandPanelState) (x : String) :
    (c.append_line x).cursor = c.cursor := by
  unfold CommandPanelState.append_line
  dsimp only
  split <;> rfl

/-- The controller-level append (append plus search refresh) grows the
scrollback by one line when under capacity. -/
theorem ctrl_append_lines (s : AppState) (l : String)
    (h : s.command.lines.length < s.command.max_lines) :
    (ctrl_append_line s l).command.lines = s.command.lines ++ [l] := by
  unfold ctrl_append_line
  rw [refresh_lines]
  dsimp only
  rw [append_line_lines]
  have hcond : ¬ ((s.command.lines ++ [l]).length > s.command.max_lines) := by
    simp only [List.length_append, List.length_singleton]
    omega
  rw [if_neg hcond]

/-- The controller-level append leaves the input line untouched. -/
theorem ctrl_append_input (s : AppState) (l : String) :
    (ctrl_append_line s l).command.input = s.command.input := by
  unfold ctrl_append_line
  rw [refresh_input]
  dsimp only
  rw [append_line_input]

/-- The controller-level append leaves the status message untouched. -/
theorem ctrl_append_message (s : AppState) (l : String) :
    (ctrl_append_line s l).message = s.message := by
  unfold ctrl_append_line
  rw [refresh_message]

/-- The controller-level append leaves the capacity untouched. -/
theorem ctrl_append_max_lines (s : AppState) (l : String) :
    (ctrl_append_line s l).command.max_lines = s.command.max_lines := by
  unfold ctrl_append_line
  rw [refresh_max_lines]
  dsimp only
  rw [append_line_max_lines]

/-- Unconditional form of the controller-level append's effect on the
scrollback. -/
theorem ctrl_append_lines_eq (s : AppState) (l : String) :
    (ctrl_append_line s l).command.lines =
      if (s.command.lines ++ [l]).length > s.command.max_lines
      then pyTakeLast s.command.max_lines (s.command.lines ++ [l])
      else s.command.lines ++ [l] := by
  unfold ctrl_append_line
  rw [refresh_lines]
  dsimp only
  rw [append_line_lines]

/-- C7: executing the input `false` when the remote run returns exit code 17,
empty stdout and stderr `problem\n` appends exactly the scrollback lines
`$ false`, `stderr: problem`, `[exit 17]` in that order, sets the status
message to `Command failed (17)`, and clears the input line (empty input,
cursor 0).  The capacity hypothesis keeps the three appends below
`max_lines` (trivially true of the default capacity 2000). -/
theorem execute_false_exit17_vector (s : AppState) (hin : s.command.input = "false")
    (hcap : s.command.lines.length + 3 ≤ s.command.max_lines) :
    (execute_input exFailRun s).command.lines =
        s.command.lines ++ ["$ false", "stderr: problem", "[exit 17]"] ∧
      (execute_input exFailRun s).message = "Command failed (17)" ∧
      (execute_input exFailRun s).command.input = "" ∧
      (execute_input exFailRun s).command.cursor = 0 := by
  unfold execute_input
  rw [hin]
  have hstrip : pyStrip "false" = "false" := rfl
  rw [hstrip]
  have hne : ("false" : String) ≠ "" := by decide
  rw [if_neg hne]
  dsimp only [exFailRun]
  rw [show pySplitlines "" = [] from rfl]
  rw [show pySplitlines "problem\n" = ["problem"] from rfl]
  have hcond : ¬ (([] : List String).isEmpty = true ∧
      (["problem"] : List String).isEmpty = true) := by decide
  rw [if_neg hcond]
  dsimp only [List.foldl_cons, List.foldl_nil]
  have h17 : ¬ ((17 : Int) = 0) := by decide
  rw [if_pos h17]
  rw [show "$ " ++ "false" = "$ false" from rfl]
  rw [show "stderr: " ++ "problem" = "stderr: problem" from rfl]
  rw [show "[exit " ++ toString (17 : Int) ++ "]" = "[exit 17]" from rfl]
  have h1 : ¬ ((s.command.lines ++ ["$ false"]).length > s.command.max_lines) := by
    simp only [List.length_append, List.length_singleton]
    omega
  have h2 : ¬ ((s.command.lines ++ ["$ false"] ++ ["stderr: problem"]).length >
      s.command.max_lines) := by
    simp only [List.length_append, List.length_singleton]
    omega
  have h3 : ¬ ((s.command.lines ++ ["$ false"] ++ ["stderr: problem"] ++
      ["[exit 17]"]).length > s.command.max_lines) := by
    simp only [List.length_append, List.length_singleton]
    omega
  refine ⟨?_, ?_, ?_, ?_⟩
  · dsimp only [CommandPanelState.clear_input]
    simp only [ctrl_append_lines_eq, ctrl_append_max_lines]
    simp only [if_neg h1]
    simp only [if_neg h2]
    simp only [if_neg h3]
    simp [List.append_assoc]
  · rfl
  · rfl
  · rfl

/-- Witness for `execute_false_exit17_vector` at the fresh panel of the
spec's example (this is exactly the spec's test vector, with an empty prior
scrollback). -/
theorem execute_false_exit17_vector_witness :
    (execute_input exFailRun exFalse).command.lines =
        exFalse.command.lines ++ ["$ false", "stderr: problem", "[exit 17]"] ∧
      (execute_input exFailRun exFalse).message = "Command failed (17)" ∧
      (execute_input exFailRun exFalse).command.input = "" ∧
      (execute_input exFailRun exFalse).command.cursor = 0 :=
  execute_false_exit17_vector exFalse rfl (by decide)

end Rex
